import Mathlib

/-!
Shallow embedding of the spaced-repetition scheduler of `src/anki/sched.py`
(class `Scheduler(BothScheduler)`).  Pure card-state arithmetic is translated
directly; Python floats are modelled as exact rationals (every literal that
appears, 1.2 = 6/5 etc., and all the concrete inputs used below are exactly
representable, so no conclusion drawn here depends on binary rounding).
Database updates are modelled as functions on lists of card records.  Parts of
the repository that the class inherits from `anki.bothSched` (constants,
`_daysLate`, `_fuzzedIvl`, `_delayForGrade`, `_leftToday`, sibling selection)
are not part of the given source files; each such definition is marked
`Modelled from the spec:` and follows the specification's words.
-/

namespace Sched

/-- Modelled from the spec: the card `type` enumeration of `anki.consts`
(NEW, LEARNING, REVIEW), stored as small integers. -/
def CARD_NEW : Int := 0

/-- Modelled from the spec: type code of a learning card. -/
def CARD_LRN : Int := 1

/-- Modelled from the spec: type code of a review card (called `CARD_DUE`
in the source). -/
def CARD_DUE : Int := 2

/-- Modelled from the spec: queue code shared by new cards and cram-new
cards (`QUEUE_NEW_CRAM` in the source). -/
def QUEUE_NEW_CRAM : Int := 0

/-- Modelled from the spec: queue code of a sub-day learning card. -/
def QUEUE_LRN : Int := 1

/-- Modelled from the spec: queue code of a review card. -/
def QUEUE_REV : Int := 2

/-- Modelled from the spec: queue code of a day-learning card. -/
def QUEUE_DAY_LRN : Int := 3

/-- Modelled from the spec: queue code of a suspended card. -/
def QUEUE_SUSPENDED : Int := -1

/-- Modelled from the spec: queue code of a user-buried card. -/
def QUEUE_USER_BURIED : Int := -2

/-- Modelled from the spec: queue code of a scheduler-buried card
(the spec's queue enumeration lists SCHED_BURIED as distinct from
USER_BURIED). -/
def QUEUE_SCHED_BURIED : Int := -3

/-- Modelled from the spec: the `leechAction` value meaning suspend. -/
def LEECH_SUSPEND : Int := 0

/-- The card record: the fields of the `cards` row that the scheduler
reads and writes (`id, nid, did, type, queue, due, ivl, factor, reps,
lapses, left, odue, odid` plus the transient `lastIvl`). -/
structure Card where
  id : Nat
  nid : Nat
  did : Int
  type : Int
  queue : Int
  due : Int
  ivl : Int
  factor : Int
  reps : Nat
  lapses : Nat
  left : Nat
  odid : Int
  odue : Int
  lastIvl : Int
deriving Repr, DecidableEq, Inhabited

/-- Python's `int()` applied to a rational: truncation toward zero. -/
def pyInt (q : ℚ) : Int :=
  if q < 0 then ⌈q⌉ else ⌊q⌋

/-- The `rev` part of a deck configuration: `conf['rev']` with the keys
`ease4`, `ivlFct` (defaulted to 1 by `conf.get` in the source) and
`maxIvl`. -/
structure RevConf where
  ease4 : ℚ
  ivlFct : ℚ
  maxIvl : Int
deriving Repr, DecidableEq

/-- Environment of a review answer: `self.today`, the resolved review
configuration `_revConf(card)`, the `_resched(card)` flag, the class field
`_spreadRev` and the inherited fuzz function `_fuzzedIvl` (modelled as an
arbitrary integer function, since its random window is drawn in
`bothSched`). -/
structure RevEnv where
  today : Int
  conf : RevConf
  resched : Bool
  spreadRev : Bool
  fuzzedIvl : Int → Int

/-- Modelled from the spec: `bothSched._daysLate` — the days the answer is
late, `delay_days = max(0, today − due)`. -/
def _daysLate (today : Int) (card : Card) : Int :=
  max 0 (today - card.due)

/-- Source `_constrainedIvl(ivl, conf, prev)`: Python
`int(max(ivl * conf.get('ivlFct', 1), prev + 1))`. -/
def _constrainedIvl (ivl : ℚ) (conf : RevConf) (prev : Int) : Int :=
  pyInt (max (ivl * conf.ivlFct) ((prev : ℚ) + 1))

/-- Source `_nextRevIvl(card, ease)`: the ideal next interval before fuzz,
for a review card answered with `ease` in {2, 3, 4} (the source's
`if ease == BUTTON_TWO / elif BUTTON_THREE / elif BUTTON_FOUR` chain binds
`interval` only for those values). -/
def _nextRevIvl (env : RevEnv) (card : Card) (ease : Nat) : Int :=
  let delay := _daysLate env.today card
  let conf := env.conf
  let fct : ℚ := (card.factor : ℚ) / 1000
  let ivl2 := _constrainedIvl (((card.ivl + delay / 4 : Int) : ℚ) * (6 / 5)) conf card.ivl
  let ivl3 := _constrainedIvl (((card.ivl + delay / 2 : Int) : ℚ) * fct) conf ivl2
  let ivl4 := _constrainedIvl (((card.ivl + delay : Int) : ℚ) * fct * conf.ease4) conf ivl3
  let interval := if ease = 2 then ivl2 else if ease = 3 then ivl3 else ivl4
  min interval conf.maxIvl

/-- Source `_adjRevIvl(card, idealIvl)`: apply `_fuzzedIvl` when the class
flag `_spreadRev` is set, otherwise the identity. -/
def _adjRevIvl (env : RevEnv) (idealIvl : Int) : Int :=
  if env.spreadRev then env.fuzzedIvl idealIvl else idealIvl

/-- Source `_updateRevIvl(card, ease)`: fuzz the ideal interval, force an
increase over `card.ivl`, cap at `maxIvl`. -/
def _updateRevIvl (env : RevEnv) (card : Card) (ease : Nat) : Card :=
  let idealIvl := _nextRevIvl env card ease
  let fuzzedIvl := _adjRevIvl env idealIvl
  let increasedIvl := max fuzzedIvl (card.ivl + 1)
  { card with ivl := min increasedIvl env.conf.maxIvl }

/-- Source `[-150, 0, 150][ease - 2]` of `_rescheduleRev` (the list index
is defined for `ease` in {2, 3, 4}). -/
def easeFactorAdj (ease : Nat) : Int :=
  if ease = 2 then -150 else if ease = 3 then 0 else 150

/-- Source `_rescheduleRev(card, ease)`: successful review answer.  When
rescheduling is in effect, update the interval, floor the adjusted factor
at 1300 and set `due = today + ivl`; otherwise restore `due = odue`; in
either case leave a filtered deck (`did = odid`, clear `odid`/`odue`). -/
def _rescheduleRev (env : RevEnv) (card : Card) (ease : Nat) : Card :=
  let card : Card := { card with lastIvl := card.ivl }
  let card : Card :=
    if env.resched then
      let c := _updateRevIvl env card ease
      let c := { c with factor := max 1300 (c.factor + easeFactorAdj ease) }
      { c with due := env.today + c.ivl }
    else
      { card with due := card.odue }
  if card.odid ≠ 0 then
    { card with did := card.odid, odid := 0, odue := 0 }
  else card

/-- The `lapse` part of a deck configuration: `conf['lapse']` with the keys
`delays` (minutes), `mult`, `minInt`, `leechFails`, `leechAction`. -/
structure LapseConf where
  delays : List ℚ
  mult : ℚ
  minInt : Int
  leechFails : Nat
  leechAction : Int
deriving Repr, DecidableEq

/-- Environment of a lapse answer: `self.today`, `time.time()`,
`self.dayCutoff`, the resolved `_lapseConf(card)`, the `_resched(card)` flag
and the inherited `_leftToday` (modelled as a parameter: the number of the
final `n` learning steps that fit before today's cutoff, drawn from
`bothSched`). -/
structure LapseEnv where
  today : Int
  now : Int
  dayCutoff : Int
  conf : LapseConf
  resched : Bool
  leftToday : List ℚ → Nat → Nat

/-- Modelled from the spec: `bothSched._delayForGrade` — the delay in
seconds before the learning step with `left` remaining steps: the matching
entry of `conf.delays` counted from the end (in minutes, times 60), falling
back to the first entry (or a dummy 1) when out of range. -/
def _delayForGrade (delays : List ℚ) (left : Nat) : ℚ :=
  let n := left % 1000
  (delays.getD (delays.length - n) (delays.headD 1)) * 60

/-- Source `_startingLeft(card)` specialised to its callers here: `delays`
is the delay list of the configuration the source selects (the lapse
configuration when `card.type = CARD_DUE`); the result packs
`total + leftToday*1000`. -/
def _startingLeft (leftToday : List ℚ → Nat → Nat) (delays : List ℚ) : Nat :=
  delays.length + (leftToday delays delays.length) * 1000

/-- Source `_nextLapseIvl(card, conf)`:
`max(conf['minInt'], int(card.ivl * conf['mult']))`. -/
def _nextLapseIvl (card : Card) (conf : LapseConf) : Int :=
  max conf.minInt (pyInt ((card.ivl : ℚ) * conf.mult))

/-- Result of `_checkLeech`: the truthiness of its return value, the
updated card, and whether the note was tagged "leech". -/
structure LeechResult where
  leech : Bool
  card : Card
  tagged : Bool
deriving Repr, DecidableEq

/-- The leech-trigger condition of `_checkLeech`, on the card's (already
incremented) lapse count: `lf` non-zero, `lapses ≥ lf` and
`(lapses − lf) mod max(lf // 2, 1) = 0`. -/
def lapseLeechCond (conf : LapseConf) (lapses : Nat) : Prop :=
  conf.leechFails ≠ 0 ∧ conf.leechFails ≤ lapses ∧
    (lapses - conf.leechFails) % max (conf.leechFails / 2) 1 = 0

instance (conf : LapseConf) (lapses : Nat) : Decidable (lapseLeechCond conf lapses) := by
  unfold lapseLeechCond; infer_instance

/-- Source `_checkLeech(card, conf)`: when the threshold condition holds,
tag the note and, under `leechAction = SUSPEND`, restore `due`/`did` from
the non-zero cram fields, clear them and suspend the card. -/
def _checkLeech (conf : LapseConf) (card : Card) : LeechResult :=
  if conf.leechFails = 0 then ⟨false, card, false⟩
  else if conf.leechFails ≤ card.lapses ∧
      (card.lapses - conf.leechFails) % max (conf.leechFails / 2) 1 = 0 then
    if conf.leechAction = LEECH_SUSPEND then
      let c : Card := if card.odue ≠ 0 then { card with due := card.odue } else card
      let c : Card := if c.odid ≠ 0 then { c with did := c.odid } else c
      ⟨true, { c with odue := 0, odid := 0, queue := QUEUE_SUSPENDED }, true⟩
    else ⟨true, card, true⟩
  else ⟨false, card, false⟩

/-- Result of `_rescheduleLapse`: the updated card, the returned delay in
seconds, the entry pushed onto the learning heap (if any), and whether the
note was tagged "leech". -/
structure LapseResult where
  card : Card
  delay : ℚ
  pushed : Option (Int × Nat)
  tagged : Bool

/-- Source `_rescheduleLapse(card)`: the `ease = 1` (Again) path of
`_answerRevCard`.  When rescheduling is in effect: increment `lapses`, set
the lapse interval, drop the factor by 200 floored at 1300, set
`due = today + ivl` and mirror it into `odue` for a filtered card.  Then
check leech; when suspended, or when the lapse configuration has no
relearning steps, stop with delay 0; otherwise move the card into the
(sub-)day learning queue.  (The `lrnCount` bump of the source is queue
bookkeeping carried by `pushed`.) -/
def _rescheduleLapse (env : LapseEnv) (card : Card) : LapseResult :=
  let conf := env.conf
  let card : Card := { card with lastIvl := card.ivl }
  let card : Card :=
    if env.resched then
      let c : Card := { card with lapses := card.lapses + 1 }
      let c : Card := { c with ivl := _nextLapseIvl c conf }
      let c : Card := { c with factor := max 1300 (c.factor - 200) }
      let c : Card := { c with due := env.today + c.ivl }
      if c.odid ≠ 0 then { c with odue := c.due } else c
    else card
  let lr := _checkLeech conf card
  let card := lr.card
  if lr.leech = true ∧ card.queue = QUEUE_SUSPENDED then
    ⟨card, 0, none, lr.tagged⟩
  else if conf.delays = [] then
    ⟨card, 0, none, lr.tagged⟩
  else
    let card : Card := if card.odue = 0 then { card with odue := card.due } else card
    let delay := _delayForGrade conf.delays 0
    let card : Card := { card with due := pyInt (delay + (env.now : ℚ)) }
    let card : Card := { card with left := _startingLeft env.leftToday conf.delays }
    if card.due < env.dayCutoff then
      let card : Card := { card with queue := QUEUE_LRN }
      ⟨card, delay, some (card.due, card.id), lr.tagged⟩
    else
      let ahead := (card.due - env.dayCutoff) / 86400 + 1
      let card : Card := { card with due := env.today + ahead, queue := QUEUE_DAY_LRN }
      ⟨card, delay, none, lr.tagged⟩

/-- Modelled from the spec: the sibling selection of
`bothSched._burySiblings` — the ids of all cards of the answered note with
`queue ∈ {NEW, REVIEW}` (queue codes 0 and 2) and `id ≠ answered.id`. -/
def burySiblingsSelect (cards : List Card) (answered : Card) : List Nat :=
  (cards.filter (fun c =>
    c.nid = answered.nid ∧ c.id ≠ answered.id ∧
      (c.queue = QUEUE_NEW_CRAM ∨ c.queue = QUEUE_REV))).map (fun c => c.id)

/-- Source `Scheduler._burySiblings(card)`: the SQL
`update cards set queue = QUEUE_USER_BURIED ... where id in toBury`,
applied to the card table. -/
def _burySiblings (cards : List Card) (answered : Card) : List Card :=
  let toBury := burySiblingsSelect cards answered
  cards.map (fun c =>
    if c.id ∈ toBury then { c with queue := QUEUE_USER_BURIED } else c)

/-- Source `unburyCards()`: the SQL
`update cards set queue = type where queue = QUEUE_USER_BURIED`, applied to
the card table (day rollover in `_updateCutoff` calls this once per day). -/
def unburyCardsUpdate (cards : List Card) : List Card :=
  cards.map (fun c =>
    if c.queue = QUEUE_USER_BURIED then { c with queue := c.type } else c)

/-- State read by one `_getCard` request: the (already filled) sub-day
learning heap ordered with its minimum in front, the clock, the collapse
window, and the outcomes of the inherited helpers `_timeForNewCard`,
`_getNewCard`, `_getRevCard` and `_getLrnDayCard`, which are pure within
one request (nothing between the call sites changes their inputs). -/
structure PickerState where
  lrnQueue : List (Int × Nat)
  now : Int
  collapseTime : Int
  timeForNew : Bool
  newCard : Option Card
  revCard : Option Card
  lrnDayCard : Option Card
  cardOf : Nat → Card

/-- Source `_getLrnCard(collapse)`: when the learning heap is non-empty and
its head is due before `now` (plus `collapseTime` in collapse mode), pop it
and return the card. -/
def _getLrnCard (s : PickerState) (collapse : Bool) : Option Card :=
  match s.lrnQueue with
  | [] => none
  | (due, id) :: _ =>
    let cutoff := s.now + (if collapse then s.collapseTime else 0)
    if due < cutoff then some (s.cardOf id) else none

/-- Source `_getCard()`: the next due card, or `none`. -/
def _getCard (s : PickerState) : Option Card :=
  match _getLrnCard s false with
  | some c => some c
  | none =>
    match (if s.timeForNew then s.newCard else none) with
    | some c => some c
    | none =>
      match s.revCard with
      | some c => some c
      | none =>
        match s.lrnDayCard with
        | some c => some c
        | none =>
          match s.newCard with
          | some c => some c
          | none => _getLrnCard s true

/-- First source that yields a card, in the given order. -/
def firstHit (sources : List (Option Card)) : Option Card :=
  match sources with
  | [] => none
  | none :: rest => firstHit rest
  | some c :: _ => some c

/-- The picker as the specification words it: six sources examined in a
fixed order, returning the first hit — (1) a sub-day learning card due
before now, (2) a new card when it is time for one, (3) a review card,
(4) a day-learning card, (5) a new card as second chance, (6) a learning
card due within `collapseTime` seconds of now. -/
def pickerSpec (s : PickerState) : Option Card :=
  firstHit
    [ s.lrnQueue.head?.bind (fun e => if e.1 < s.now then some (s.cardOf e.2) else none),
      if s.timeForNew then s.newCard else none,
      s.revCard,
      s.lrnDayCard,
      s.newCard,
      s.lrnQueue.head?.bind (fun e =>
        if e.1 < s.now + s.collapseTime then some (s.cardOf e.2) else none) ]

/-- Environment of `_fillRev`: the card table in storage order, `today`,
`queueLimit`, the per-deck review limit `_deckRevLimit`, the `dyn` flag of
each deck, the seeded shuffle, and the state of the global `random` module.
`shuffle` is Modelled from the spec: `random.Random()` seeded with `today`
and applied by `r.shuffle` is a fixed deterministic function of the seed
and the list.  `ambientRng` models the global `random` module state, which
`_fillRev` never consults (it builds a fresh seeded generator). -/
structure RevFillEnv where
  db : List Card
  today : Int
  queueLimit : Nat
  revLimit : Int → Nat
  dynOf : Int → Bool
  shuffle : Int → List Nat → List Nat
  ambientRng : Nat

/-- The SQL of `_fillRev`:
`select id from cards where did = ? and queue = QUEUE_REV and due <= ? limit ?`
read off the card table in storage order. -/
def fetchRevIds (env : RevFillEnv) (did : Int) (lim : Nat) : List Nat :=
  ((env.db.filter (fun c =>
    c.did = did ∧ c.queue = QUEUE_REV ∧ c.due ≤ env.today)).map (fun c => c.id)).take lim

/-- The ordering block of `_fillRev`: a filtered (dyn) deck's fetched list
is reversed (the queue is consumed by `pop()` from the end), a regular
deck's is shuffled by a fresh PRNG seeded with `today`. -/
def orderRevQueue (env : RevFillEnv) (did : Int) (q : List Nat) : List Nat :=
  if env.dynOf did then q.reverse else env.shuffle env.today q

/-- The `while self._revDids` loop of `_fillRev`: for each active deck in
turn, fetch up to `min(queueLimit, deckRevLimit(did))` due review cards;
the first non-empty fetch becomes the queue after ordering.  (The source's
final non-zero-count branch re-runs this same loop on reset state; the
deck-pop bookkeeping only advances this iteration.) -/
def _fillRevLoop (env : RevFillEnv) : List Int → Option (List Nat)
  | [] => none
  | did :: rest =>
    let lim := min env.queueLimit (env.revLimit did)
    if lim ≠ 0 then
      let q := fetchRevIds env did lim
      if q ≠ [] then some (orderRevQueue env did q)
      else _fillRevLoop env rest
    else _fillRevLoop env rest

/-- Order in which `_getRevCard` serves a queue: it consumes by `pop()`
from the end of the list. -/
def popServeOrder (q : List Nat) : List Nat :=
  q.reverse

/-- One row's update of `_moveToDyn(did, ids)`: save `odid`/`odue` from the
current values unless already set, move the card to the filtered deck, keep
due reviews in the review queue, and assign `due = -100000 + position`
(every SQL set clause reads the pre-update row). -/
def _moveToDynCard (dynDid : Int) (today : Int) (pos : Nat) (c : Card) : Card :=
  { c with
    odid := if c.odid ≠ 0 then c.odid else c.did,
    odue := if c.odue ≠ 0 then c.odue else c.due,
    did := dynDid,
    queue :=
      if c.type = CARD_DUE ∧
          (if c.odue ≠ 0 then c.odue ≤ today else c.due ≤ today)
      then QUEUE_REV else QUEUE_NEW_CRAM,
    due := -100000 + (pos : Int) }

/-- One row's update of `emptyDyn(did)`: restore `did`/`due` from the cram
fields, send a learning card back to new, clear `odue`/`odid` (every SQL
set clause reads the pre-update row). -/
def emptyDynCard (c : Card) : Card :=
  { c with
    did := c.odid,
    queue := if c.type = CARD_LRN then QUEUE_NEW_CRAM else c.type,
    type := if c.type = CARD_LRN then CARD_NEW else c.type,
    due := c.odue,
    odue := 0,
    odid := 0 }

/-- Source `_dynIvlBoost(card)`: interval boost for a lapsed review card
seen in a filtered deck, `min(maxIvl, int(max(card.ivl, elapsed * factor, 1)))`
with `elapsed = today − (odue − ivl)` and `factor = ((card.factor/1000)+1.2)/2`
(the source's asserts `odid ≠ 0`, `type = CARD_DUE`, `factor ≠ 0` hold at
its call sites). -/
def _dynIvlBoost (today : Int) (conf : RevConf) (card : Card) : Int :=
  let lastReview := card.odue - card.ivl
  let elapsed := today - lastReview
  let factor : ℚ := ((card.factor : ℚ) / 1000 + 6 / 5) / 2
  let ivl := pyInt (max (max ((card.ivl : Int) : ℚ) ((elapsed : ℚ) * factor)) 1)
  min conf.maxIvl ivl

/-- The ways `answerCard` raises: the failed `assert 1 <= ease <= 4`, and
the final `raise Exception("Invalid queue")`. -/
inductive AnswerErr where
  | badEase
  | invalidQueue
deriving Repr, DecidableEq

/-- Environment of `answerCard`: `self.today`, the resolved review
configuration, the `_resched(card)` flag, `_startingLeft` packaged over the
card, and the two answer handlers `_answerLrnCard` / `_answerRevCard`
(neither raises; their card updates are irrelevant to the dispatch). -/
structure AnswerEnv where
  today : Int
  conf : RevConf
  resched : Bool
  startingLeft : Card → Nat
  answerLrn : Card → Nat → Card
  answerRev : Card → Nat → Card

/-- Source `answerCard(card, ease)` up to its queue dispatch: check the
ease assertion, count the rep, move a cram-new card into learning (with the
dynamic interval boost for a lapsed review first seen in a filtered deck),
then dispatch on queue — raising on any queue outside
{NEW_CRAM, LRN, DAY_LRN, REV}.  An `Except.error` models the raise
aborting the operation with no retry. -/
def answerCard (env : AnswerEnv) (card : Card) (ease : Int) : Except AnswerErr Card :=
  if ¬ (1 ≤ ease ∧ ease ≤ 4) then .error .badEase
  else
    let card : Card := { card with reps := card.reps + 1 }
    let wasNewQ := card.queue = QUEUE_NEW_CRAM
    let card : Card :=
      if wasNewQ then
        let c : Card := { card with queue := QUEUE_LRN }
        let c : Card := if c.type = CARD_NEW then { c with type := CARD_LRN } else c
        let c : Card := { c with left := env.startingLeft c }
        if c.odid ≠ 0 ∧ c.type = CARD_DUE ∧ env.resched then
          let c : Card := { c with ivl := _dynIvlBoost env.today env.conf c }
          { c with odue := env.today + c.ivl }
        else c
      else card
    if card.queue = QUEUE_LRN ∨ card.queue = QUEUE_DAY_LRN then
      .ok (env.answerLrn card ease.toNat)
    else if card.queue = QUEUE_REV then
      .ok (env.answerRev card ease.toNat)
    else .error .invalidQueue

/-- The review card of scenario S3: `ivl = 10`, `factor = 2500`,
`due = today − 2` in a regular deck (with `today = 0`). -/
def card0 : Card :=
  { id := 1, nid := 1, did := 1, type := CARD_DUE, queue := QUEUE_REV,
    due := -2, ivl := 10, factor := 2500, reps := 3, lapses := 0,
    left := 0, odid := 0, odue := 0, lastIvl := 0 }

/-- The review configuration of scenario S3:
`ivlFct = 1.0, ease4 = 1.3, maxIvl = 36500`. -/
def conf0 : RevConf := { ease4 := 13 / 10, ivlFct := 1, maxIvl := 36500 }

/-- The review environment of scenario S3: a regular deck at `today = 0`
with fuzz disabled. -/
def env0 : RevEnv :=
  { today := 0, conf := conf0, resched := true, spreadRev := false,
    fuzzedIvl := fun i => i }

theorem pyInt_of_nonneg (q : ℚ) (h : 0 ≤ q) : pyInt q = ⌊q⌋ := by
  unfold pyInt
  rw [if_neg (not_lt.mpr h)]

/-- C1 counterexample: on the S3 card (`ivl = 10`, `factor = 2500`,
`due = today − 2`, `ivlFct = 1.0`, `ease4 = 1.3`, `maxIvl = 36500`, fuzz
disabled) answering Good gives interval 27, not the claimed 28: the source
truncates `int(max(27.5, 13)) = 27` where the claim rounds up. -/
theorem C1_counterexample :
    (_rescheduleRev env0 card0 3).ivl = 27 ∧
      ¬ (_rescheduleRev env0 card0 3).ivl = 28 := by
  have h : (_rescheduleRev env0 card0 3).ivl = 27 := by
    norm_num [_rescheduleRev, _updateRevIvl, _nextRevIvl, _constrainedIvl,
      _daysLate, _adjRevIvl, easeFactorAdj, pyInt, card0, conf0, env0]
  exact ⟨h, by rw [h]; omega⟩

/-- C1 (amended): each candidate interval is
`constrain(x, prev) = max(⌊x × conf.ivlFct⌋, prev + 1)` — Python `int()`
truncation, not a ceiling — and on the S3 card `answerCard(card, 3)`
computes `Hard = 12` and `Good = int(max(27.5, 13)) = 27`, leaving the card
with `ivl = 27`, `factor = 2500`, `due = today + 27`. -/
theorem C1_amended :
    (∀ (x : ℚ) (conf : RevConf) (prev : Int), 0 ≤ x * conf.ivlFct →
      _constrainedIvl x conf prev = max ⌊x * conf.ivlFct⌋ (prev + 1)) ∧
    _nextRevIvl env0 card0 2 = 12 ∧
    (_rescheduleRev env0 card0 3).ivl = 27 ∧
    (_rescheduleRev env0 card0 3).factor = 2500 ∧
    (_rescheduleRev env0 card0 3).due = 27 := by
  refine ⟨?_, ?_, ?_, ?_, ?_⟩
  · intro x conf prev h
    unfold _constrainedIvl
    have h0 : (0 : ℚ) ≤ max (x * conf.ivlFct) ((prev : ℚ) + 1) :=
      le_trans h (le_max_left _ _)
    rw [pyInt_of_nonneg _ h0]
    have hc : ((prev : ℚ) + 1) = ((prev + 1 : Int) : ℚ) := by push_cast; ring
    rcases le_total (x * conf.ivlFct) ((prev : ℚ) + 1) with hle | hge
    · have h1 : ⌊x * conf.ivlFct⌋ ≤ prev + 1 := by
        have h2 := Int.floor_mono hle
        rwa [hc, Int.floor_intCast] at h2
      rw [max_eq_right hle, hc, Int.floor_intCast, max_eq_right h1]
    · have h1 : prev + 1 ≤ ⌊x * conf.ivlFct⌋ := by
        rw [Int.le_floor]
        push_cast
        exact hge
      rw [max_eq_left hge, max_eq_left h1]
  · norm_num [_nextRevIvl, _constrainedIvl, _daysLate, pyInt, card0, conf0, env0]
  · norm_num [_rescheduleRev, _updateRevIvl, _nextRevIvl, _constrainedIvl,
      _daysLate, _adjRevIvl, easeFactorAdj, pyInt, card0, conf0, env0]
  · norm_num [_rescheduleRev, _updateRevIvl, _nextRevIvl, _constrainedIvl,
      _daysLate, _adjRevIvl, easeFactorAdj, pyInt, card0, conf0, env0]
  · norm_num [_rescheduleRev, _updateRevIvl, _nextRevIvl, _constrainedIvl,
      _daysLate, _adjRevIvl, easeFactorAdj, pyInt, card0, conf0, env0]

/-- C1 witness: the constrain characterisation applied at the S3 Good
candidate `x = 27.5`, `prev = 12`. -/
theorem C1_witness :
    0 ≤ (27.5 : ℚ) * conf0.ivlFct ∧
      _constrainedIvl 27.5 conf0 12 = max ⌊(27.5 : ℚ) * conf0.ivlFct⌋ 13 :=
  ⟨by norm_num [conf0], C1_amended.1 27.5 conf0 12 (by norm_num [conf0])⟩

/-- A review card already sitting at the configured maximum interval
(`ivl = maxIvl = 5`), due today. -/
def card3 : Card :=
  { id := 2, nid := 2, did := 1, type := CARD_DUE, queue := QUEUE_REV,
    due := 0, ivl := 5, factor := 2500, reps := 3, lapses := 0,
    left := 0, odid := 0, odue := 0, lastIvl := 0 }

/-- A review environment whose configuration caps intervals at 5 days. -/
def env3 : RevEnv :=
  { today := 0, conf := { ease4 := 13 / 10, ivlFct := 1, maxIvl := 5 },
    resched := true, spreadRev := false, fuzzedIvl := fun i => i }

/-- C3 counterexample: a review card with `ivl = maxIvl = 5` answered Good
keeps `ivl = 5`, so `old.ivl + 1 ≤ new.ivl` fails — the claim's lower bound
does not hold for every successfully answered review card. -/
theorem C3_counterexample :
    (_rescheduleRev env3 card3 3).ivl = 5 ∧
      ¬ (card3.ivl + 1 ≤ (_rescheduleRev env3 card3 3).ivl) := by
  have h : (_rescheduleRev env3 card3 3).ivl = 5 := by
    norm_num [_rescheduleRev, _updateRevIvl, _nextRevIvl, _constrainedIvl,
      _daysLate, _adjRevIvl, easeFactorAdj, pyInt, card3, env3]
  refine ⟨h, ?_⟩
  rw [h]
  norm_num [card3]

/-- C3 (amended): for every review card answered successfully with
rescheduling in effect and `old.ivl < conf.maxIvl`, the resulting interval
satisfies `old.ivl + 1 ≤ new.ivl ≤ conf.maxIvl` — for any outcome of the
fuzz function. -/
theorem C3_amended (env : RevEnv) (card : Card) (ease : Nat)
    (hr : env.resched = true) (hlt : card.ivl < env.conf.maxIvl) :
    card.ivl + 1 ≤ (_rescheduleRev env card ease).ivl ∧
      (_rescheduleRev env card ease).ivl ≤ env.conf.maxIvl := by
  unfold _rescheduleRev _updateRevIvl
  simp only [hr, if_true]
  split <;> simp <;> omega

/-- C3 witness: the amended bounds at the S3 card (`ivl = 10 < 36500`). -/
theorem C3_witness :
    card0.ivl + 1 ≤ (_rescheduleRev env0 card0 3).ivl ∧
      (_rescheduleRev env0 card0 3).ivl ≤ env0.conf.maxIvl :=
  C3_amended env0 card0 3 rfl (by decide)

/-- C10: for every review card answered successfully (ease 2, 3 or 4) with
rescheduling in effect, the resulting ease factor is at least 1300: the
source floors `factor + [-150, 0, 150][ease-2]` at 1300, so the floor also
applies to the −150 adjustment of ease 2. -/
theorem C10_factor_floor (env : RevEnv) (card : Card) (ease : Nat)
    (hr : env.resched = true) (he : ease = 2 ∨ ease = 3 ∨ ease = 4) :
    1300 ≤ (_rescheduleRev env card ease).factor := by
  unfold _rescheduleRev _updateRevIvl
  simp only [hr, if_true]
  split <;> simp

/-- C10 witness: the factor floor at the S3 card answered Hard (ease 2). -/
theorem C10_witness : 1300 ≤ (_rescheduleRev env0 card0 2).factor :=
  C10_factor_floor env0 card0 2 rfl (Or.inl rfl)

theorem checkLeech_not_triggered (conf : LapseConf) (card : Card)
    (h : ¬ lapseLeechCond conf card.lapses) :
    _checkLeech conf card = ⟨false, card, false⟩ := by
  by_cases h0 : conf.leechFails = 0
  · simp [_checkLeech, h0]
  · have h1 : ¬ (conf.leechFails ≤ card.lapses ∧
        (card.lapses - conf.leechFails) % max (conf.leechFails / 2) 1 = 0) := by
      intro hab
      exact h ⟨h0, hab.1, hab.2⟩
    simp [_checkLeech, h0, h1]

/-- The S4-like lapse configuration with no relearning steps and an
immediate leech threshold: `delays = []`, `mult = 0.5`, `minInt = 1`,
`leechFails = 1`, `leechAction = SUSPEND`. -/
def envL : LapseEnv :=
  { today := 0, now := 1000, dayCutoff := 86400,
    conf := { delays := [], mult := 1 / 2, minInt := 1, leechFails := 1,
              leechAction := LEECH_SUSPEND },
    resched := true, leftToday := fun _ n => n }

/-- A review card one lapse away from `envL`'s leech threshold. -/
def cardL : Card :=
  { id := 3, nid := 3, did := 1, type := CARD_DUE, queue := QUEUE_REV,
    due := 3, ivl := 10, factor := 2500, reps := 5, lapses := 0,
    left := 0, odid := 0, odue := 0, lastIvl := 0 }

/-- C4 counterexample: with `conf.lapse.delays = []` but a leech threshold
of 1 with `leechAction = SUSPEND`, the lapse suspends the card, so it does
not keep `queue = REVIEW` as the claim states for every empty-delays
lapse. -/
theorem C4_counterexample :
    envL.conf.delays = [] ∧
      (_rescheduleLapse envL cardL).card.queue = QUEUE_SUSPENDED ∧
      ¬ (_rescheduleLapse envL cardL).card.queue = QUEUE_REV := by
  refine ⟨rfl, ?_, ?_⟩ <;>
    norm_num [_rescheduleLapse, _checkLeech, _nextLapseIvl, pyInt,
      _delayForGrade, _startingLeft, envL, cardL, LEECH_SUSPEND,
      QUEUE_SUSPENDED, QUEUE_REV, QUEUE_LRN, QUEUE_DAY_LRN]

theorem checkLeech_tagonly (conf : LapseConf) (card : Card)
    (h : lapseLeechCond conf card.lapses) (ha : conf.leechAction ≠ LEECH_SUSPEND) :
    _checkLeech conf card = ⟨true, card, true⟩ := by
  obtain ⟨h0, h1, h2⟩ := h
  simp [_checkLeech, h0, h1, h2, ha]

/-- C4 (amended): for every review card answered with ease 1 and
rescheduling in effect, provided the lapse does not trigger a leech
suspension (no leech at all, or a tag-only leech with
`leechAction ≠ SUSPEND`), `_rescheduleLapse` increments `lapses` by 1,
sets `ivl = max(conf.lapse.minInt, int(ivl × conf.lapse.mult))` and
`factor = max(1300, factor − 200)`, mirrors the new due into `odue` for a
filtered card; and when `conf.lapse.delays` is empty the card keeps
`queue = REVIEW` with `due = today + ivl`, no learning step is pushed and
the returned delay is 0. -/
theorem C4_amended (env : LapseEnv) (card : Card)
    (hr : env.resched = true) (hq : card.queue = QUEUE_REV)
    (hnl : ¬ (lapseLeechCond env.conf (card.lapses + 1) ∧
      env.conf.leechAction = LEECH_SUSPEND)) :
    (_rescheduleLapse env card).card.lapses = card.lapses + 1 ∧
    (_rescheduleLapse env card).card.ivl =
      max env.conf.minInt (pyInt ((card.ivl : ℚ) * env.conf.mult)) ∧
    (_rescheduleLapse env card).card.factor = max 1300 (card.factor - 200) ∧
    (card.odid ≠ 0 → (_rescheduleLapse env card).card.odue =
      env.today + (_rescheduleLapse env card).card.ivl) ∧
    (env.conf.delays = [] →
      (_rescheduleLapse env card).card.queue = QUEUE_REV ∧
      (_rescheduleLapse env card).card.due =
        env.today + (_rescheduleLapse env card).card.ivl ∧
      (_rescheduleLapse env card).pushed = none ∧
      (_rescheduleLapse env card).delay = 0) := by
  unfold _rescheduleLapse
  simp only [hr, if_true]
  by_cases hlc : lapseLeechCond env.conf (card.lapses + 1)
  · have ha : env.conf.leechAction ≠ LEECH_SUSPEND := fun h => hnl ⟨hlc, h⟩
    split <;>
    · rw [checkLeech_tagonly _ _ (by simpa using hlc) ha]
      simp only [_nextLapseIvl]
      split
      · simp_all [show QUEUE_REV ≠ QUEUE_SUSPENDED from by decide]
      · split
        · simp_all
        · split <;> (try split) <;> simp_all
  · split <;>
    · rw [checkLeech_not_triggered _ _ (by simpa using hlc)]
      simp only [_nextLapseIvl]
      split
      · simp_all
      · split
        · simp_all
        · split <;> (try split) <;> simp_all

/-- A lapse environment with no relearning steps and a tag-only leech
action (`leechAction = 1 ≠ SUSPEND`) whose threshold of 1 fires on the
first lapse. -/
def envW : LapseEnv :=
  { today := 0, now := 100, dayCutoff := 86400,
    conf := { delays := [], mult := 1 / 2, minInt := 1, leechFails := 1,
              leechAction := 1 },
    resched := true, leftToday := fun _ n => n }

/-- C4 witness: the amended lapse behaviour at `cardL` under `envW` — the
lapse fires a tag-only leech, which does not suspend, so the card keeps
the review queue. -/
theorem C4_witness :
    (_rescheduleLapse envW cardL).card.lapses = cardL.lapses + 1 ∧
    (_rescheduleLapse envW cardL).card.ivl =
      max envW.conf.minInt (pyInt ((cardL.ivl : ℚ) * envW.conf.mult)) ∧
    (_rescheduleLapse envW cardL).card.factor = max 1300 (cardL.factor - 200) ∧
    (cardL.odid ≠ 0 → (_rescheduleLapse envW cardL).card.odue =
      envW.today + (_rescheduleLapse envW cardL).card.ivl) ∧
    (envW.conf.delays = [] →
      (_rescheduleLapse envW cardL).card.queue = QUEUE_REV ∧
      (_rescheduleLapse envW cardL).card.due =
        envW.today + (_rescheduleLapse envW cardL).card.ivl ∧
      (_rescheduleLapse envW cardL).pushed = none ∧
      (_rescheduleLapse envW cardL).delay = 0) :=
  C4_amended envW cardL rfl rfl (by decide)

set_option maxHeartbeats 1000000 in
/-- C5: leech detection.  The leech flag of `_checkLeech` holds exactly
when `lf = conf.leechFails` is non-zero, `lapses ≥ lf` and
`(lapses − lf) mod max(lf ÷ 2, 1) = 0`; triggering tags the note "leech";
under `leechAction = SUSPEND` the card's `due`/`did` are restored from the
non-zero cram fields, `odid`/`odue` are cleared and the queue is set to
SUSPENDED; and `leechFails = 0` never triggers a leech. -/
theorem C5_leech (conf : LapseConf) (card : Card) :
    ((_checkLeech conf card).leech = true ↔ lapseLeechCond conf card.lapses) ∧
    (conf.leechFails = 0 → (_checkLeech conf card).leech = false) ∧
    ((_checkLeech conf card).leech = true → (_checkLeech conf card).tagged = true) ∧
    ((_checkLeech conf card).leech = true → conf.leechAction = LEECH_SUSPEND →
      (_checkLeech conf card).card.queue = QUEUE_SUSPENDED ∧
      (_checkLeech conf card).card.odid = 0 ∧
      (_checkLeech conf card).card.odue = 0 ∧
      (card.odue ≠ 0 → (_checkLeech conf card).card.due = card.odue) ∧
      (card.odid ≠ 0 → (_checkLeech conf card).card.did = card.odid)) := by
  by_cases h0 : conf.leechFails = 0 <;>
    by_cases hc : conf.leechFails ≤ card.lapses ∧
      (card.lapses - conf.leechFails) % max (conf.leechFails / 2) 1 = 0 <;>
    by_cases ha : conf.leechAction = LEECH_SUSPEND <;>
    by_cases hu : card.odue = 0 <;>
    by_cases hi : card.odid = 0 <;>
    simp [_checkLeech, lapseLeechCond, h0, hc, ha, hu, hi]

/-- A lapse configuration whose leech threshold of 2 is met, with the
suspend action. -/
def confX : LapseConf :=
  { delays := [1], mult := 1 / 2, minInt := 1, leechFails := 2,
    leechAction := LEECH_SUSPEND }

/-- A card at `confX`'s leech threshold, sitting in a filtered deck
(`odid = 7`, `odue = 42`). -/
def cardX : Card :=
  { id := 4, nid := 4, did := 3, type := CARD_DUE, queue := QUEUE_REV,
    due := 5, ivl := 10, factor := 2500, reps := 9, lapses := 2,
    left := 0, odid := 7, odue := 42, lastIvl := 0 }

/-- C5 witness: `cardX` triggers the leech and is suspended with its cram
fields restored and cleared. -/
theorem C5_witness :
    (_checkLeech confX cardX).leech = true ∧
    (_checkLeech confX cardX).card.queue = QUEUE_SUSPENDED ∧
    (_checkLeech confX cardX).card.due = cardX.odue ∧
    (_checkLeech confX cardX).card.did = cardX.odid ∧
    (_checkLeech confX cardX).card.odid = 0 ∧
    (_checkLeech confX cardX).card.odue = 0 := by
  have h := C5_leech confX cardX
  have hl : (_checkLeech confX cardX).leech = true := h.1.mpr (by decide)
  have hs := h.2.2.2 hl rfl
  exact ⟨hl, hs.1, hs.2.2.2.1 (by decide), hs.2.2.2.2 (by decide), hs.2.1, hs.2.2.1⟩

/-- A review card of note 5, the one being answered. -/
def cardA : Card :=
  { id := 10, nid := 5, did := 1, type := CARD_DUE, queue := QUEUE_REV,
    due := 0, ivl := 3, factor := 2500, reps := 1, lapses := 0,
    left := 0, odid := 0, odue := 0, lastIvl := 0 }

/-- A sibling review card of the same note 5. -/
def cardB : Card :=
  { id := 11, nid := 5, did := 1, type := CARD_DUE, queue := QUEUE_REV,
    due := 0, ivl := 4, factor := 2500, reps := 1, lapses := 0,
    left := 0, odid := 0, odue := 0, lastIvl := 0 }

/-- C2 counterexample: answering `cardA` buries its sibling `cardB` with
`queue = QUEUE_USER_BURIED` — not the claimed `SCHED_BURIED` — and
`unburyCards()` (which flips exactly `USER_BURIED` back to the type) does
unbury it back to `queue = REVIEW` instead of leaving it buried. -/
theorem C2_counterexample :
    (_burySiblings [cardA, cardB] cardA).map (fun c => c.queue) =
      [QUEUE_REV, QUEUE_USER_BURIED] ∧
    ¬ QUEUE_USER_BURIED = QUEUE_SCHED_BURIED ∧
    (unburyCardsUpdate (_burySiblings [cardA, cardB] cardA)).map (fun c => c.queue) =
      [QUEUE_REV, QUEUE_REV] := by
  decide

/-- C2 (amended): when a note's card is answered with `conf.bury = true`,
every other card of that note with queue in {NEW, REVIEW} is buried with
`queue = USER_BURIED` (the same code user burial uses), and
`unburyCards()` — which flips USER_BURIED cards back to their type — does
unbury those sibling-buried cards; day rollover unburies them only because
it calls `unburyCards()`. -/
theorem C2_amended (cards : List Card) (answered c : Card)
    (hm : c ∈ cards) (hn : c.nid = answered.nid) (hi : c.id ≠ answered.id)
    (hq : c.queue = QUEUE_NEW_CRAM ∨ c.queue = QUEUE_REV) :
    { c with queue := QUEUE_USER_BURIED } ∈ _burySiblings cards answered ∧
    ∀ cs : List Card, { c with queue := QUEUE_USER_BURIED } ∈ cs →
      { c with queue := c.type } ∈ unburyCardsUpdate cs := by
  constructor
  · unfold _burySiblings
    have hid : c.id ∈ burySiblingsSelect cards answered := by
      unfold burySiblingsSelect
      exact List.mem_map_of_mem _ (List.mem_filter.mpr ⟨hm, by simp [hn, hi, hq]⟩)
    have h2 := List.mem_map_of_mem
      (f := fun c => if c.id ∈ burySiblingsSelect cards answered
        then { c with queue := QUEUE_USER_BURIED } else c) hm
    simpa [hid] using h2
  · intro cs hcs
    unfold unburyCardsUpdate
    have h2 := List.mem_map_of_mem
      (f := fun c => if c.queue = QUEUE_USER_BURIED
        then { c with queue := c.type } else c) hcs
    simpa using h2

/-- C2 witness: the amended statement at the two-card note, with the
unburied sibling back in the review queue. -/
theorem C2_witness :
    { cardB with queue := QUEUE_USER_BURIED } ∈ _burySiblings [cardA, cardB] cardA ∧
    { cardB with queue := cardB.type } ∈
      unburyCardsUpdate (_burySiblings [cardA, cardB] cardA) := by
  have h := C2_amended [cardA, cardB] cardA cardB (by decide) (by decide)
    (by decide) (by decide)
  exact ⟨h.1, h.2 _ h.1⟩

/-- C6: the picker examines its sources in the fixed order of the claim —
sub-day learning due before now, new when it is time, review,
day-learning, new as second chance, learning within the collapse window —
and returns the first hit (`none` when all miss). -/
theorem C6_picker_order (s : PickerState) : _getCard s = pickerSpec s := by
  obtain ⟨lq, now, ct, tf, nc, rc, ldc, co⟩ := s
  cases lq with
  | nil =>
    cases tf <;> cases nc <;> cases rc <;> cases ldc <;>
      simp [_getCard, pickerSpec, _getLrnCard, firstHit]
  | cons e rest =>
    obtain ⟨d, i⟩ := e
    by_cases h1 : d < now <;>
      by_cases h2 : d < now + ct <;>
      cases tf <;> cases nc <;> cases rc <;> cases ldc <;>
      simp [_getCard, pickerSpec, _getLrnCard, firstHit, h1, h2]

/-- C7: the review queue fill is a function of the card table, the active
decks and `today` alone — the ambient state of the global `random` module
never influences it (the shuffle uses a fresh PRNG seeded by `today`), so
two fills from identical storage, decks and day agree; and for a filtered
(dyn) deck the fetched list is reversed, so consuming it by `pop()` from
the end serves the cards in fetched (stored due) order, while a regular
deck's queue is the `today`-seeded shuffle of the fetched list. -/
theorem C7_fill_deterministic (env : RevFillEnv) (r : Nat) (dids : List Int) :
    _fillRevLoop { env with ambientRng := r } dids = _fillRevLoop env dids ∧
    (∀ did q, env.dynOf did = true → popServeOrder (orderRevQueue env did q) = q) ∧
    (∀ did q, env.dynOf did = false →
      orderRevQueue env did q = env.shuffle env.today q) := by
  refine ⟨?_, ?_, ?_⟩
  · induction dids with
    | nil => rfl
    | cons d rest ih => simp [_fillRevLoop, fetchRevIds, orderRevQueue, ih]
  · intro did q hdyn
    simp [popServeOrder, orderRevQueue, hdyn]
  · intro did q hdyn
    simp [orderRevQueue, hdyn]

/-- A one-deck review fill environment over a filtered deck, with the
identity standing in for the seeded shuffle. -/
def env7 : RevFillEnv :=
  { db := [cardA], today := 0, queueLimit := 50, revLimit := fun _ => 50,
    dynOf := fun _ => true, shuffle := fun _ l => l, ambientRng := 0 }

/-- C7 witness: the fill of deck 1 is unchanged under a different ambient
PRNG state, and the dyn-deck queue `[5, 6]` is served back in fetched
order. -/
theorem C7_witness :
    _fillRevLoop { env7 with ambientRng := 99 } [1] = _fillRevLoop env7 [1] ∧
    popServeOrder (orderRevQueue env7 1 [5, 6]) = [5, 6] := by
  have h := C7_fill_deterministic env7 99 [1]
  exact ⟨h.1, h.2.1 1 [5, 6] rfl⟩

/-- C8: for every card moved into a filtered deck with `type ≠ LEARNING`
(such cards carry `odid = odue = 0`, since the fill search excludes
filtered-deck and learning cards), `_moveToDyn` followed by `emptyDyn`
restores `did` and `due` to their originals and leaves
`odid = odue = 0`. -/
theorem C8_dyn_round_trip (c : Card) (dynDid today : Int) (pos : Nat)
    (h1 : c.odid = 0) (h2 : c.odue = 0) (h3 : c.type ≠ CARD_LRN) :
    (emptyDynCard (_moveToDynCard dynDid today pos c)).did = c.did ∧
    (emptyDynCard (_moveToDynCard dynDid today pos c)).due = c.due ∧
    (emptyDynCard (_moveToDynCard dynDid today pos c)).odid = 0 ∧
    (emptyDynCard (_moveToDynCard dynDid today pos c)).odue = 0 := by
  simp [emptyDynCard, _moveToDynCard, h1, h2, h3]

/-- A review card in regular deck 3, due on day 12, eligible for a
filtered deck. -/
def cardD : Card :=
  { id := 6, nid := 6, did := 3, type := CARD_DUE, queue := QUEUE_REV,
    due := 12, ivl := 5, factor := 2500, reps := 2, lapses := 0,
    left := 0, odid := 0, odue := 0, lastIvl := 0 }

/-- C8 witness: the round trip at `cardD` moved into filtered deck 9. -/
theorem C8_witness :
    (emptyDynCard (_moveToDynCard 9 0 4 cardD)).did = cardD.did ∧
    (emptyDynCard (_moveToDynCard 9 0 4 cardD)).due = cardD.due ∧
    (emptyDynCard (_moveToDynCard 9 0 4 cardD)).odid = 0 ∧
    (emptyDynCard (_moveToDynCard 9 0 4 cardD)).odue = 0 :=
  C8_dyn_round_trip cardD 9 0 4 rfl rfl (by decide)

theorem answerCard_badEase (env : AnswerEnv) (card : Card) (ease : Int)
    (he : ¬ (1 ≤ ease ∧ ease ≤ 4)) :
    answerCard env card ease = .error .badEase := by
  unfold answerCard
  rw [if_pos he]

set_option maxHeartbeats 1000000 in
theorem answerCard_ok_newcram (env : AnswerEnv) (card : Card) (ease : Int)
    (he : 1 ≤ ease ∧ ease ≤ 4) (hq0 : card.queue = QUEUE_NEW_CRAM) :
    ∃ c, answerCard env card ease = .ok c := by
  unfold answerCard
  rw [if_neg (not_not_intro he)]
  by_cases ht : card.type = CARD_NEW
  · simp [hq0, ht, show CARD_LRN ≠ CARD_DUE from by decide]
  · by_cases hod : card.odid ≠ 0 ∧ card.type = CARD_DUE ∧ env.resched = true <;>
      simp [hq0, ht, hod, show CARD_DUE ≠ CARD_NEW from by decide]

theorem answerCard_ok_direct (env : AnswerEnv) (card : Card) (ease : Int)
    (he : 1 ≤ ease ∧ ease ≤ 4) (hq0 : ¬ card.queue = QUEUE_NEW_CRAM)
    (hq : card.queue = QUEUE_LRN ∨ card.queue = QUEUE_DAY_LRN ∨ card.queue = QUEUE_REV) :
    ∃ c, answerCard env card ease = .ok c := by
  unfold answerCard
  rw [if_neg (not_not_intro he)]
  rcases hq with h | h | h <;>
    simp [hq0, h, show QUEUE_REV ≠ QUEUE_LRN from by decide,
      show QUEUE_REV ≠ QUEUE_DAY_LRN from by decide,
      show QUEUE_LRN ≠ QUEUE_NEW_CRAM from by decide,
      show QUEUE_DAY_LRN ≠ QUEUE_NEW_CRAM from by decide,
      show QUEUE_REV ≠ QUEUE_NEW_CRAM from by decide]

theorem answerCard_invalid (env : AnswerEnv) (card : Card) (ease : Int)
    (he : 1 ≤ ease ∧ ease ≤ 4)
    (h0 : ¬ card.queue = QUEUE_NEW_CRAM) (h1 : ¬ card.queue = QUEUE_LRN)
    (h3 : ¬ card.queue = QUEUE_DAY_LRN) (h2 : ¬ card.queue = QUEUE_REV) :
    answerCard env card ease = .error .invalidQueue := by
  unfold answerCard
  rw [if_neg (not_not_intro he)]
  simp [h0, h1, h3, h2]

/-- C9: `answerCard` succeeds exactly when `1 ≤ ease ≤ 4` and the queue is
one of {NEW/CRAM_NEW, LEARNING, DAY_LEARNING, REVIEW}; a bad ease aborts
with the assertion error (before any mutation), and under the
preconditions the invalid-queue error is never raised — the raise aborts
the operation with no retry (modelled by `Except.error`). -/
theorem C9_answer_raises_iff (env : AnswerEnv) (card : Card) (ease : Int) :
    ((∃ c, answerCard env card ease = .ok c) ↔
      ((1 ≤ ease ∧ ease ≤ 4) ∧
        (card.queue = QUEUE_NEW_CRAM ∨ card.queue = QUEUE_LRN ∨
         card.queue = QUEUE_DAY_LRN ∨ card.queue = QUEUE_REV))) ∧
    (¬ (1 ≤ ease ∧ ease ≤ 4) → answerCard env card ease = .error .badEase) ∧
    ((1 ≤ ease ∧ ease ≤ 4) →
      (card.queue = QUEUE_NEW_CRAM ∨ card.queue = QUEUE_LRN ∨
       card.queue = QUEUE_DAY_LRN ∨ card.queue = QUEUE_REV) →
      ¬ answerCard env card ease = .error .invalidQueue) := by
  have hok : (1 ≤ ease ∧ ease ≤ 4) →
      (card.queue = QUEUE_NEW_CRAM ∨ card.queue = QUEUE_LRN ∨
       card.queue = QUEUE_DAY_LRN ∨ card.queue = QUEUE_REV) →
      ∃ c, answerCard env card ease = .ok c := by
    intro he hq
    by_cases hq0 : card.queue = QUEUE_NEW_CRAM
    · exact answerCard_ok_newcram env card ease he hq0
    · exact answerCard_ok_direct env card ease he hq0 (by tauto)
  refine ⟨⟨?_, fun h => hok h.1 h.2⟩, ?_, ?_⟩
  · rintro ⟨c, hc⟩
    by_cases he : 1 ≤ ease ∧ ease ≤ 4
    · refine ⟨he, ?_⟩
      by_contra hq
      push_neg at hq
      rw [answerCard_invalid env card ease he hq.1 hq.2.1 hq.2.2.1 hq.2.2.2] at hc
      simp at hc
    · rw [answerCard_badEase env card ease he] at hc
      simp at hc
  · intro he
    exact answerCard_badEase env card ease he
  · intro he hq hbad
    obtain ⟨c, hc⟩ := hok he hq
    rw [hbad] at hc
    simp at hc

/-- An answer environment with trivial handlers, for exercising the
dispatch of `answerCard`. -/
def envA : AnswerEnv :=
  { today := 0, conf := conf0, resched := true,
    startingLeft := fun _ => 2002,
    answerLrn := fun c _ => c, answerRev := fun c _ => c }

/-- C9 witness: a review card with ease 3 is answered without raising,
and ease 9 aborts with the assertion error. -/
theorem C9_witness :
    (∃ c, answerCard envA cardA 3 = .ok c) ∧
      answerCard envA cardA 9 = .error .badEase :=
  ⟨(C9_answer_raises_iff envA cardA 3).1.mpr
      ⟨by decide, Or.inr (Or.inr (Or.inr rfl))⟩,
   (C9_answer_raises_iff envA cardA 9).2.1 (by decide)⟩

end Sched
